import Mathlib

/-!
Verification of the solar-grabber repository (src/main.rs, src/sun600.rs,
src/tasmota.rs): a shallow embedding of its data model (Value, Field,
PublishData), the two HTML scrapers with their fixed regex patterns, the
InfluxDB line-protocol encoder with its escaping rules, and the config
loading logic, together with theorems settling the specification claims.

Modelling conventions:
- Rust `String`s are embedded as `List Char` (named `Str`).
- `f64` values are embedded as exact rationals `ℚ`; `str::parse::<f64>()`
  is embedded by `parseF64`, which implements the finite-decimal grammar of
  Rust's float parsing (sign, digits, optional fraction, optional exponent,
  no surrounding whitespace, nothing trailing); the special forms
  inf/infinity/nan are outside the model.  `f64::to_string()` is embedded
  by `f64Str`, exact shortest decimal rendering.
- The `regex` crate's leftmost-first (Perl-like, greedy with backtracking)
  matching of the fixed patterns is embedded by a small matcher over a
  pattern-item AST (`Item`): literal, greedy char-class star/plus, optional
  char, and a single capture group, searched at the leftmost possible
  start position.
-/

deriving instance DecidableEq for Except

namespace SG

/-- Rust strings are modelled as lists of characters. -/
abbrev Str := List Char

/-! ## Decimal rendering of numbers (model of `f64::to_string`) -/

/-- One decimal digit as a character (defensive default for d ≥ 10,
which never arises from `n % 10`). -/
def digitChar : Nat → Char
  | 0 => '0'
  | 1 => '1'
  | 2 => '2'
  | 3 => '3'
  | 4 => '4'
  | 5 => '5'
  | 6 => '6'
  | 7 => '7'
  | 8 => '8'
  | 9 => '9'
  | _ + 10 => '9'

/-- Fueled decimal rendering of a natural number (fuel `n + 1` always
suffices); fuel keeps the definition structurally recursive so that it
evaluates inside the kernel. -/
def natStrF : Nat → Nat → Str
  | 0, _ => []
  | fuel + 1, n =>
    if n < 10 then [digitChar n] else natStrF fuel (n / 10) ++ [digitChar (n % 10)]

/-- Decimal rendering of a natural number. -/
def natStr (n : Nat) : Str := natStrF (n + 1) n

/-- Smallest `k ≤ 400` such that `d` divides `10 ^ k`, if any. -/
def pow10Exp (d : Nat) : Option Nat :=
  (List.range 400).find? (fun k => 10 ^ k % d == 0)

/-- Strip trailing `'0'` characters. -/
def dropZeros (s : Str) : Str := (s.reverse.dropWhile (fun c => c = '0')).reverse

/-- Left-pad with `'0'` to length `k`. -/
def padZeros (k : Nat) (s : Str) : Str := List.replicate (k - s.length) '0' ++ s

/-- Exact decimal rendering of a rational: the model of `f64::to_string()`
on the exact values this program manipulates (Rust renders e.g. 99.0 as
"99" and 1010.2 as "1010.2"; the `/`-fallback for non-decimal denominators
never fires on parsed values). -/
def f64Str (q : ℚ) : Str :=
  let sign : Str := if q.num < 0 then ['-'] else []
  let n := q.num.natAbs
  let d := q.den
  match pow10Exp d with
  | some k =>
    let scaled := n * 10 ^ k / d
    let ip := scaled / 10 ^ k
    let fr := scaled % 10 ^ k
    if fr = 0 then sign ++ natStr ip
    else sign ++ natStr ip ++ '.' :: dropZeros (padZeros k (natStr fr))
  | none => sign ++ natStr n ++ '/' :: natStr d

/-! ## Model of `str::parse::<f64>()` -/

/-- Value of a digit string read in base 10. -/
def digitsVal (s : Str) : Nat := s.foldl (fun a c => a * 10 + (c.toNat - 48)) 0

/-- Model of Rust `str::parse::<f64>()` restricted to finite decimals:
optional sign, then digits with optional fraction (at least one digit in
total), then an optional exponent part; no surrounding whitespace and no
trailing input is accepted.  The result is the exactly-denoted rational
(sign times mantissa times ten to the signed exponent), assembled from
integer arithmetic through a single `Rat.divInt`. -/
def parseF64 (s : Str) : Option ℚ :=
  let p1 : Bool × Str :=
    match s with
    | '+' :: r => (false, r)
    | '-' :: r => (true, r)
    | _ => (false, s)
  let p2 := p1.2.span Char.isDigit
  let ipd := p2.1
  let p3 : Option Str × Str :=
    match p2.2 with
    | '.' :: r => ((r.span Char.isDigit).1, (r.span Char.isDigit).2)
    | _ => (none, p2.2)
  let fpd := p3.1
  if ipd = [] ∧ fpd.getD [] = [] then none
  else
    let fl := (fpd.getD []).length
    let mant : Nat := digitsVal ipd * 10 ^ fl + digitsVal (fpd.getD [])
    let sNum : Int := if p1.1 then -(mant : Int) else (mant : Int)
    match p3.2 with
    | [] => some (Rat.divInt sNum (10 ^ fl))
    | e :: r =>
      if e = 'e' ∨ e = 'E' then
        let p4 : Bool × Str :=
          match r with
          | '+' :: r2 => (false, r2)
          | '-' :: r2 => (true, r2)
          | _ => (false, r)
        let p5 := p4.2.span Char.isDigit
        if p5.1 = [] ∨ p5.2 ≠ [] then none
        else
          let ex := digitsVal p5.1
          if p4.1 then some (Rat.divInt sNum (10 ^ fl * 10 ^ ex))
          else some (Rat.divInt (sNum * 10 ^ ex) (10 ^ fl))
      else none

/-- ASCII whitespace, standing in for both regex `\s` and the whitespace
classes used by Rust's `str::trim`. -/
def isWsR (c : Char) : Bool :=
  c = ' ' ∨ c = '\t' ∨ c = '\n' ∨ c = '\r' ∨ c = Char.ofNat 11 ∨ c = Char.ofNat 12

/-- Model of Rust `str::trim`: strip whitespace from both ends. -/
def rustTrim (s : Str) : Str :=
  ((s.dropWhile isWsR).reverse.dropWhile isWsR).reverse

/-! ## A small regex matcher

The four sun600 patterns and the three tasmota patterns are sequences of:
literal text, greedy char-class star/plus, an optional single character,
and exactly one capture group (around a char-class plus or star).  `Item`
is that pattern language; `matchSeq` implements the `regex` crate's
leftmost-first semantics: greedy repetition tried longest-first with
backtracking, and `findCapture` scans start positions left to right. -/

/-- One element of a pattern. -/
inductive Item where
  | lit : Str → Item
  | star : (Char → Bool) → Item
  | plus : (Char → Bool) → Item
  | opt : Char → Item
  | gstar : (Char → Bool) → Item
  | gplus : (Char → Bool) → Item

/-- Length of the maximal run of characters satisfying `p`. -/
def runLen (p : Char → Bool) : Str → Nat
  | [] => 0
  | c :: cs => if p c then runLen p cs + 1 else 0

/-- Try `f` at `k, k-1, ..., 0`, returning the first success
(greedy: longest repetition first). -/
def descTry (f : Nat → Option α) : Nat → Option α
  | 0 => f 0
  | k + 1 =>
    match f (k + 1) with
    | some r => some r
    | none => descTry f k

/-- Try `f` at `k, k-1, ..., 1`, returning the first success. -/
def descTryPos (f : Nat → Option α) : Nat → Option α
  | 0 => none
  | k + 1 =>
    match f (k + 1) with
    | some r => some r
    | none => descTryPos f k

/-- Match a pattern sequence against a prefix of `cs`, returning the text
of the capture group on success.  `fuel` only needs to exceed the number
of items (each step consumes one item); it keeps the recursion structural
so that the matcher evaluates inside the kernel. -/
def matchSeq : Nat → List Item → Str → Option Str
  | 0, _, _ => none
  | _ + 1, [], _ => some []
  | fuel + 1, item :: rest, cs =>
    match item with
    | .lit l => if l.isPrefixOf cs then matchSeq fuel rest (cs.drop l.length) else none
    | .star p => descTry (fun k => matchSeq fuel rest (cs.drop k)) (runLen p cs)
    | .plus p => descTryPos (fun k => matchSeq fuel rest (cs.drop k)) (runLen p cs)
    | .opt c =>
      match cs with
      | [] => matchSeq fuel rest []
      | c' :: cs' =>
        if c' = c then
          match matchSeq fuel rest cs' with
          | some r => some r
          | none => matchSeq fuel rest cs
        else matchSeq fuel rest cs
    | .gstar p =>
      descTry (fun k => (matchSeq fuel rest (cs.drop k)).map (fun _ => cs.take k))
        (runLen p cs)
    | .gplus p =>
      descTryPos (fun k => (matchSeq fuel rest (cs.drop k)).map (fun _ => cs.take k))
        (runLen p cs)

/-- Unanchored leftmost search: model of `Regex::captures` composed with
extraction of capture group 1. -/
def findCapture (items : List Item) : Str → Option Str
  | [] => matchSeq (items.length + 1) items []
  | c :: cs =>
    match matchSeq (items.length + 1) items (c :: cs) with
    | some r => some r
    | none => findCapture items cs

/-! ## The fixed patterns of the two scrapers -/

/-- Characters allowed inside the sun600 capture group `[^;"]+`. -/
def notSemiQuote (c : Char) : Bool := ¬(c = ';' ∨ c = '"')

/-- The sun600 pattern `var NAME\s*=\s*"?([^;"]+)\s*"?;` for a given
variable name (P_DEVICE_SN, P_CURRENT_POWER, P_YIELD_TODAY,
P_TOTAL_YIELD in src/sun600.rs). -/
def sunItems (name : Str) : List Item :=
  [.lit ('v' :: 'a' :: 'r' :: ' ' :: name), .star isWsR, .lit ['='], .star isWsR,
   .opt '"', .gplus notSemiQuote, .star isWsR, .opt '"', .lit [';']]

/-- The tasmota pattern `LABEL[^>]*>[^>]*>([^<]*)` for a given label
(Active Power / Energy Today / Energy Total in src/tasmota.rs). -/
def tasItems (label : Str) : List Item :=
  [.lit label, .star (fun c => ¬(c = '>')), .lit ['>'],
   .star (fun c => ¬(c = '>')), .lit ['>'], .gstar (fun c => ¬(c = '<'))]

/-! ## Data model (src/main.rs): Value, Field, PublishData -/

/-- `enum Value { String(String), F64(f64) }`. -/
inductive Value where
  | String : Str → Value
  | F64 : ℚ → Value
deriving DecidableEq

/-- `enum Field { Tag(String, Value), Field(String, Value) }`. -/
inductive Field where
  | Tag : Str → Value → Field
  | Field : Str → Value → Field
deriving DecidableEq

/-- `struct PublishData { fields: Vec<Field> }`; `tag` and `field` append. -/
structure PublishData where
  fields : List Field
deriving DecidableEq

/-- The tag entries of a field list, in insertion order. -/
def tagPairsL (fs : List Field) : List (Str × Value) :=
  fs.filterMap fun f =>
    match f with
    | .Tag name v => some (name, v)
    | .Field _ _ => none

/-- The field entries of a field list, in insertion order. -/
def fieldPairsL (fs : List Field) : List (Str × Value) :=
  fs.filterMap fun f =>
    match f with
    | .Field name v => some (name, v)
    | .Tag _ _ => none

/-- The tag entries of a PublishData, in insertion order. -/
def tagPairs (d : PublishData) : List (Str × Value) := tagPairsL d.fields

/-- The field entries of a PublishData, in insertion order. -/
def fieldPairs (d : PublishData) : List (Str × Value) := fieldPairsL d.fields

/-- The name of a Field entry. -/
def entryName : Field → Str
  | .Tag name _ => name
  | .Field name _ => name

/-- The value of a Field entry. -/
def entryVal : Field → Value
  | .Tag _ v => v
  | .Field _ v => v

/-- The filter of the `Index` implementation: the value of an entry (Tag
or Field alike) whose name equals the index, else nothing. -/
def matchVal (idx : Str) : Field → Option Value
  | .Tag name v => if name = idx then some v else none
  | .Field name v => if name = idx then some v else none

/-- `impl Index<&str> for PublishData` (src/main.rs lines 63-76): iterate
the entries, keep the value of each entry (Tag or Field alike) whose name
equals the index, take the first — then `.unwrap()`.  The model returns
`none` exactly where the Rust code panics. -/
def indexData (d : PublishData) (idx : Str) : Option Value :=
  (d.fields.filterMap (matchVal idx)).head?

/-! ## Scraper error model

`anyhow` errors are modelled by the information the messages carry:
a marker that did not match yields a context message naming the field
(`with_context` in the sources); a failed `parse::<f64>()?` yields Rust's
ParseFloatError, whose message ("invalid float literal") names no field;
the inverter's all-zero rejection carries the device serial number. -/

inductive PollError where
  | notFound : String → PollError
  | floatErr : PollError
  | allZero : Str → PollError
deriving DecidableEq

/-- `Inverter` (src/sun600.rs). -/
structure Inverter where
  status_page_url : Str
  user : Str
  password : Str
  device_name : Str
  device_location : Option Str
deriving DecidableEq

/-- `Tasmota` (src/tasmota.rs); the IPv4 address is four octets. -/
structure Tasmota where
  ip : Nat × Nat × Nat × Nat
  device_name : Str
  device_location : Option Str
deriving DecidableEq

/-- Capture of one sun600 marker in a body. -/
def sunCapture (name : String) (html : Str) : Option Str :=
  findCapture (sunItems name.data) html

/-- Capture of one tasmota marker in a body. -/
def tasCapture (label : String) (html : Str) : Option Str :=
  findCapture (tasItems label.data) html

/-- `Inverter::parse_html` (src/sun600.rs lines 41-84): capture the four
markers in order (each failure names the field), trim only the serial,
parse the three numbers (failure is a field-less float error), reject when
all three are zero, else build the PublishData. -/
def Inverter.parse_html (inv : Inverter) (html : Str) : Except PollError PublishData :=
  match sunCapture "cover_mid" html with
  | none => .error (.notFound "Could not parse device sn")
  | some rawSn =>
    let device_sn := rustTrim rawSn
    match sunCapture "webdata_now_p" html with
    | none => .error (.notFound "Could not parse current power")
    | some rawCp =>
      match parseF64 rawCp with
      | none => .error .floatErr
      | some current_power =>
        match sunCapture "webdata_today_e" html with
        | none => .error (.notFound "Could not parse yield today")
        | some rawYt =>
          match parseF64 rawYt with
          | none => .error .floatErr
          | some yield_today =>
            match sunCapture "webdata_total_e" html with
            | none => .error (.notFound "Could not parse total yield")
            | some rawTy =>
              match parseF64 rawTy with
              | none => .error .floatErr
              | some total_yield =>
                if current_power = 0 ∧ yield_today = 0 ∧ total_yield = 0 then
                  .error (.allZero device_sn)
                else
                  .ok ⟨[.Tag ("deviceName".data) (.String inv.device_name)] ++
                       (match inv.device_location with
                        | some loc => [.Tag ("deviceLocation".data) (.String loc)]
                        | none => []) ++
                       [.Tag ("device".data) (.String device_sn),
                        .Field ("currentPower".data) (.F64 current_power),
                        .Field ("yieldToday".data) (.F64 yield_today),
                        .Field ("totalYield".data) (.F64 total_yield)]⟩

/-- `Tasmota::parse_html` (src/tasmota.rs lines 27-57): capture the three
labels, parse the three numbers, build the PublishData; no zero filter. -/
def Tasmota.parse_html (tas : Tasmota) (html : Str) : Except PollError PublishData :=
  match tasCapture "Active Power" html with
  | none => .error (.notFound "Could not parse current power")
  | some rawCp =>
    match parseF64 rawCp with
    | none => .error .floatErr
    | some current_power =>
      match tasCapture "Energy Today" html with
      | none => .error (.notFound "Could not parse yield today")
      | some rawYt =>
        match parseF64 rawYt with
        | none => .error .floatErr
        | some yield_today =>
          match tasCapture "Energy Total" html with
          | none => .error (.notFound "Could not parse total yield")
          | some rawTy =>
            match parseF64 rawTy with
            | none => .error .floatErr
            | some total_yield =>
              .ok ⟨[.Tag ("deviceName".data) (.String tas.device_name)] ++
                   (match tas.device_location with
                    | some loc => [.Tag ("deviceLocation".data) (.String loc)]
                    | none => []) ++
                   [.Field ("currentPower".data) (.F64 current_power),
                    .Field ("yieldToday".data) (.F64 yield_today),
                    .Field ("totalYield".data) (.F64 total_yield)]⟩

/-! ## Line-protocol encoder (src/main.rs, `BackendInfluxDB::publish`) -/

/-- Characters escaped in the measurement: `escape!(measurement; ',' ' ')`. -/
def mSens : List Char := [',', ' ']

/-- Characters escaped in tag keys, tag string values, and field keys:
`escape!(..; ',' '=' ' ')`. -/
def kvSens : List Char := [',', '=', ' ']

/-- Characters escaped in string field values: `escape!(s; '"' '\\')`. -/
def sfSens : List Char := ['"', '\\']

/-- The `escape!` macro (src/main.rs lines 186-204): one left-to-right
scan over the characters; a sensitive character is preceded by a pushed
backslash, every character is then pushed unchanged. -/
def escape (sens : List Char) (x : Str) : Str :=
  x.foldl (fun result c => (if c ∈ sens then result ++ ['\\'] else result) ++ [c]) []

/-- Rendering of a tag value inside `publish`: strings through
`escape!(s; ',' '=' ' ')`, numbers through `to_string()`. -/
def tagValSrc : Value → Str
  | .String s => escape kvSens s
  | .F64 f => f64Str f

/-- Rendering of a field value inside `publish`: strings through
`escape!(s; '"' '\\')`, numbers through `to_string()`. -/
def fieldValSrc : Value → Str
  | .String s => escape sfSens s
  | .F64 f => f64Str f

/-- One step of the first loop of `publish` (tags): a Tag entry appends
`,key=value`, a Field entry is skipped. -/
def tagStep (line : Str) : Field → Str
  | .Tag name v => line ++ ',' :: (escape kvSens name ++ '=' :: tagValSrc v)
  | .Field _ _ => line

/-- One step of the second loop of `publish` (fields): a Field entry
appends `key=value`, preceded by a comma unless it is the first; the
Boolean tracks the `first` flag. -/
def fieldStep (acc : Str × Bool) : Field → Str × Bool
  | .Field name v =>
    ((acc.1 ++ if acc.2 then [] else [',']) ++ (escape kvSens name ++ '=' :: fieldValSrc v),
      false)
  | .Tag _ _ => acc

/-- The line built by `BackendInfluxDB::publish` (src/main.rs lines
149-177) before it is POSTed: escaped measurement, the tag loop, one
space, the field loop. -/
def encodeLine (measurement : Str) (d : PublishData) : Str :=
  (d.fields.foldl fieldStep
    (d.fields.foldl tagStep (escape mSens measurement) ++ [' '], true)).1

/-! ### Specification-side rendering (from the words of the spec)

`lineSpec` follows §4.4 of the spec: per-character escaping (one backslash
prefix per offending character), the grammar
`measurement[,tagkey=tagvalue]* fieldkey=fieldvalue[,fieldkey=fieldvalue]*`
with tags then fields each in insertion order, a single space between the
sections, and single commas between fields. -/

/-- Per-character escaping: a sensitive character becomes backslash
followed by the character, any other character is left unchanged. -/
def escChar (sens : List Char) (c : Char) : Str :=
  if c ∈ sens then ['\\', c] else [c]

/-- Spec-side escaping of a whole string. -/
def escSpec (sens : List Char) (s : Str) : Str := (s.map (escChar sens)).flatten

/-- Spec-side tag value rendering. -/
def tagValSpec : Value → Str
  | .String s => escSpec kvSens s
  | .F64 f => f64Str f

/-- Spec-side field value rendering. -/
def fieldValSpec : Value → Str
  | .String s => escSpec sfSens s
  | .F64 f => f64Str f

/-- Spec-side `key=value` text of one tag entry. -/
def segTag (p : Str × Value) : Str := escSpec kvSens p.1 ++ '=' :: tagValSpec p.2

/-- Spec-side `key=value` text of one field entry. -/
def segField (p : Str × Value) : Str := escSpec kvSens p.1 ++ '=' :: fieldValSpec p.2

/-- Segments separated by single copies of `sep`, no leading or trailing
separator. -/
def joinSegs (sep : Str) : List Str → Str
  | [] => []
  | s :: rest => s ++ (rest.map (fun t => sep ++ t)).flatten

/-- The spec's output grammar for one line. -/
def lineSpec (measurement : Str) (d : PublishData) : Str :=
  escSpec mSens measurement ++
    ((tagPairs d).map (fun p => ',' :: segTag p)).flatten ++
    ' ' :: joinSegs [','] ((fieldPairs d).map segField)

/-! ## Decoding (the spec's round-trip reading of a line) -/

/-- Split at the first occurrence of `c`; `none` when `c` is absent. -/
def splitAtFirst (c : Char) : Str → Option (Str × Str)
  | [] => none
  | x :: xs =>
    if x = c then some ([], xs)
    else (splitAtFirst c xs).map (fun p => (x :: p.1, p.2))

/-- Split on every occurrence of `c` (the empty string yields `[[]]`). -/
def splitOnChar (c : Char) : Str → List Str
  | [] => [[]]
  | x :: xs =>
    if x = c then [] :: splitOnChar c xs
    else
      match splitOnChar c xs with
      | [] => [[x]]
      | s :: rest => (x :: s) :: rest

/-- Read a `key=value` segment: key is everything before the first `=`. -/
def kvOf (seg : Str) : Str × Str :=
  match splitAtFirst '=' seg with
  | some p => p
  | none => (seg, [])

/-- Decode a line: measurement and tag section before the first space,
field section after it; comma-separated `key=value` segments. -/
def decodeLine (line : Str) : Option (Str × List (Str × Str) × List (Str × Str)) :=
  match splitAtFirst ' ' line with
  | none => none
  | some (head, fieldSec) =>
    match splitOnChar ',' head with
    | [] => none
    | m :: tagSegs => some (m, tagSegs.map kvOf, (splitOnChar ',' fieldSec).map kvOf)

/-- All characters the encoder ever escapes, in any context. -/
def sensUnion : List Char := [',', '=', ' ', '"', '\\']

/-- A string free of every character the encoder ever escapes. -/
def sensFree (s : Str) : Prop := ∀ c ∈ s, c ∉ sensUnion

/-- A value whose string content (if any) is free of escapable characters. -/
def valSensFree : Value → Prop
  | .String s => sensFree s
  | .F64 _ => True

/-- An entry whose name and string content are free of escapable
characters. -/
def entrySensFree (f : Field) : Prop := sensFree (entryName f) ∧ valSensFree (entryVal f)

/-- The text a decoded segment shows for a value: the string itself, or
the decimal rendering of a number. -/
def valText : Value → Str
  | .String s => s
  | .F64 f => f64Str f

instance (s : Str) : Decidable (sensFree s) := List.decidableBAll _ s

instance (v : Value) : Decidable (valSensFree v) :=
  match v with
  | .String s => inferInstanceAs (Decidable (sensFree s))
  | .F64 _ => .isTrue trivial

instance (f : Field) : Decidable (entrySensFree f) :=
  inferInstanceAs (Decidable (_ ∧ _))

/-! ## Config loading (src/main.rs, `Config::load`)

The clap/env plumbing, serde_json parsing and the config file are external
inputs; they enter the model as the two optional argument strings, two
parse functions and the file-read result.  The decision logic (both
arguments, exactly one, neither; `unwrap_or(vec![])` on the targets parse;
the two emptiness rejections) is translated from the source. -/

/-- `BackendInfluxDB` configuration. -/
structure BackendInfluxDB where
  influx_url : Str
  bucket : Str
  org : Str
  token : Str
  measurement : Str
deriving DecidableEq

/-- `enum SourceDevice`. -/
inductive SourceDevice where
  | Inverter : Inverter → SourceDevice
  | Tasmota : Tasmota → SourceDevice
deriving DecidableEq

/-- `struct Config`. -/
structure Config where
  sources : List SourceDevice
  targets : List BackendInfluxDB
deriving DecidableEq

/-- Errors of `Config::load`, by the message they carry. -/
inductive ConfigError where
  | badSourcesJson : ConfigError
  | supplyAllOrNone : ConfigError
  | fileError : ConfigError
  | noSources : ConfigError
  | noPublishers : ConfigError
deriving DecidableEq

/-- The `result` computed by the argument match of `Config::load`
(src/main.rs lines 115-133): both arguments supplied parses them (a
target-parse failure silently becomes an empty list, `unwrap_or(vec![])`);
exactly one supplied is rejected; neither supplied reads the config
file. -/
def configMerge (srcArg tgtArg : Option String)
    (parseSources : String → Except ConfigError (List SourceDevice))
    (parseTargets : String → Except ConfigError (List BackendInfluxDB))
    (readFileConf : Except ConfigError Config) : Except ConfigError Config :=
  match srcArg, tgtArg with
  | some s, some t =>
    match parseSources s with
    | .error e => .error e
    | .ok ss =>
      .ok ⟨ss,
        match parseTargets t with
        | .ok ts => ts
        | .error _ => []⟩
  | some _, none => .error .supplyAllOrNone
  | none, some _ => .error .supplyAllOrNone
  | none, none => readFileConf

/-- `Config::load` (src/main.rs lines 107-141): the argument merge
followed by the two emptiness rejections. -/
def configLoad (srcArg tgtArg : Option String)
    (parseSources : String → Except ConfigError (List SourceDevice))
    (parseTargets : String → Except ConfigError (List BackendInfluxDB))
    (readFileConf : Except ConfigError Config) : Except ConfigError Config :=
  match configMerge srcArg tgtArg parseSources parseTargets readFileConf with
  | .error e => .error e
  | .ok result =>
    if result.sources = [] then .error .noSources
    else if result.targets = [] then .error .noPublishers
    else .ok result

/-- The PublishData built by a successful inverter poll, given the
trimmed serial and the three parsed values. -/
def invData (inv : Inverter) (sn : Str) (cp yt ty : ℚ) : PublishData :=
  ⟨[.Tag ("deviceName".data) (.String inv.device_name)] ++
   (match inv.device_location with
    | some loc => [.Tag ("deviceLocation".data) (.String loc)]
    | none => []) ++
   [.Tag ("device".data) (.String sn),
    .Field ("currentPower".data) (.F64 cp),
    .Field ("yieldToday".data) (.F64 yt),
    .Field ("totalYield".data) (.F64 ty)]⟩

/-- The PublishData built by a successful smart-plug poll, given the
three parsed values. -/
def tasData (tas : Tasmota) (cp yt ty : ℚ) : PublishData :=
  ⟨[.Tag ("deviceName".data) (.String tas.device_name)] ++
   (match tas.device_location with
    | some loc => [.Tag ("deviceLocation".data) (.String loc)]
    | none => []) ++
   [.Field ("currentPower".data) (.F64 cp),
    .Field ("yieldToday".data) (.F64 yt),
    .Field ("totalYield".data) (.F64 ty)]⟩

/-! ## Concrete instances used to instantiate the theorems -/

/-- A concrete inverter configuration. -/
def cInv : Inverter :=
  ⟨"u".data, "us".data, "pw".data, "name".data, some "location".data⟩

/-- A concrete smart-plug configuration. -/
def cTas : Tasmota := ⟨(127, 0, 0, 1), "name".data, some "location".data⟩

/-- The spec's end-to-end inverter example body (serial padded inside the
quotes, numeric values exact literals). -/
def cExHtml : Str :=
  ("var cover_mid = \"238483342   \";\nvar webdata_now_p = \"998\";\nvar webdata_today_e = \"99.0\";\nvar webdata_total_e = \"1010.2\";\nvar webdata_alarm = \"\";\n").data

/-- An inverter body reporting all-zero values. -/
def cZeroHtml : Str :=
  ("var cover_mid = \"238483342\";var webdata_now_p = \"0\";var webdata_today_e = \"0.0\";var webdata_total_e = \"0\";").data

/-- An inverter body whose current-power value is padded with spaces
inside the quotes. -/
def cPadHtml : Str :=
  ("var cover_mid = \"S1\";var webdata_now_p = \"998   \";var webdata_today_e = \"1\";var webdata_total_e = \"1\";").data

/-- An inverter body whose current-power value is not a number. -/
def cBadCpHtml : Str :=
  ("var cover_mid = \"S1\";var webdata_now_p = \"abc\";var webdata_today_e = \"1\";var webdata_total_e = \"1\";").data

/-- An inverter body whose yield-today value is not a number. -/
def cBadYtHtml : Str :=
  ("var cover_mid = \"S1\";var webdata_now_p = \"1\";var webdata_today_e = \"abc\";var webdata_total_e = \"1\";").data

/-- A smart-plug body reporting all-zero values. -/
def cTasHtml : Str :=
  ("Active Power</td><td>0</td>x Energy Today</td><td>0.0</td>x Energy Total</td><td>0</td>").data

/-- A concrete PublishData: one tag with a comma in its value, one
numeric field (the spec's encoder example). -/
def cExData : PublishData :=
  ⟨[.Tag ("device".data) (.String ("a,b".data)),
    .Field ("p".data) (.F64 (Rat.divInt 3 2))]⟩

/-- A concrete PublishData free of escapable characters. -/
def cPlainData : PublishData :=
  ⟨[.Tag ("deviceName".data) (.String ("solar".data)),
    .Tag ("device".data) (.String ("238483342".data)),
    .Field ("currentPower".data) (.F64 998),
    .Field ("yieldToday".data) (.F64 (Rat.divInt 5051 5))]⟩

/-- A concrete backend target configuration. -/
def cBackend : BackendInfluxDB :=
  ⟨"http".data, "b".data, "o".data, "t".data, "m".data⟩

/-- A concrete sources parser. -/
def cParseSrc : String → Except ConfigError (List SourceDevice) :=
  fun _ => .ok [.Inverter cInv]

/-- A concrete targets parser. -/
def cParseTgt : String → Except ConfigError (List BackendInfluxDB) :=
  fun _ => .ok [cBackend]

/-- A concrete config-file read result. -/
def cFileConf : Except ConfigError Config := .error .fileError

/-! ## Encoder lemmas -/

/-- The `escape!` loop with an arbitrary accumulator prepends the
accumulator to the per-character escaped text. -/
theorem escape_foldl (sens : List Char) (s : Str) (acc : Str) :
    s.foldl (fun result c => (if c ∈ sens then result ++ ['\\'] else result) ++ [c]) acc =
      acc ++ (s.map (escChar sens)).flatten := by
  induction s generalizing acc with
  | nil => simp
  | cons c cs ih =>
    by_cases hc : c ∈ sens <;>
      simp [List.foldl_cons, ih, escChar, hc, List.append_assoc]

/-- The source's `escape!` equals the spec's per-character escaping. -/
theorem escape_eq (sens : List Char) (s : Str) : escape sens s = escSpec sens s := by
  simpa [escape, escSpec] using escape_foldl sens s []

/-- Source and spec tag-value renderings agree. -/
theorem tagVal_eq (v : Value) : tagValSrc v = tagValSpec v := by
  cases v <;> simp [tagValSrc, tagValSpec, escape_eq]

/-- Source and spec field-value renderings agree. -/
theorem fieldVal_eq (v : Value) : fieldValSrc v = fieldValSpec v := by
  cases v <;> simp [fieldValSrc, fieldValSpec, escape_eq]

/-- The tag loop of `publish` appends `,key=value` for the tag entries in
order. -/
theorem tagLoop_eq (fs : List Field) (acc : Str) :
    fs.foldl tagStep acc = acc ++ ((tagPairsL fs).map (fun p => ',' :: segTag p)).flatten := by
  induction fs generalizing acc with
  | nil => simp [tagPairsL]
  | cons f fs ih =>
    cases f with
    | Tag name v =>
      simp [List.foldl_cons, tagStep, ih, tagPairsL, segTag, escape_eq, tagVal_eq,
        List.append_assoc]
    | Field name v => simp [List.foldl_cons, tagStep, ih, tagPairsL]

/-- The field loop of `publish`, once past its first field, prepends a
comma to every further `key=value`. -/
theorem fieldLoop_false (fs : List Field) (acc : Str) :
    (fs.foldl fieldStep (acc, false)).1 =
      acc ++ ((fieldPairsL fs).map (fun p => ',' :: segField p)).flatten := by
  induction fs generalizing acc with
  | nil => simp [fieldPairsL]
  | cons f fs ih =>
    cases f with
    | Field name v =>
      simp [List.foldl_cons, fieldStep, ih, fieldPairsL, segField, escape_eq, fieldVal_eq,
        List.append_assoc]
    | Tag name v => simp [List.foldl_cons, fieldStep, ih, fieldPairsL]

/-- The full field loop of `publish` produces the field entries in order,
separated by single commas. -/
theorem fieldLoop_true (fs : List Field) (acc : Str) :
    (fs.foldl fieldStep (acc, true)).1 =
      acc ++ joinSegs [','] ((fieldPairsL fs).map segField) := by
  induction fs generalizing acc with
  | nil => simp [fieldPairsL, joinSegs]
  | cons f fs ih =>
    cases f with
    | Field name v =>
      simp [List.foldl_cons, fieldStep, fieldLoop_false, fieldPairsL, joinSegs, segField,
        escape_eq, fieldVal_eq, List.append_assoc, Function.comp_def]
    | Tag name v => simp [List.foldl_cons, fieldStep, ih, fieldPairsL]

/-- The line built by `publish` refines the spec's output grammar. -/
theorem encode_eq_spec (m : Str) (d : PublishData) : encodeLine m d = lineSpec m d := by
  simp [encodeLine, lineSpec, fieldLoop_true, tagLoop_eq, escape_eq, tagPairs, fieldPairs,
    List.append_assoc]

/-- Claim C2: the encoder escapes by prefixing exactly one backslash per
offending character in a single left-to-right scan (per-character
characterization of `escape`, with characters outside the sensitive set
emitted unchanged); the measurement's sensitive set is comma and space
(not `=`); tag keys, tag string values, and field keys use comma, `=`,
and space; string field values use double-quote and backslash; numeric
values are rendered through the decimal conversion `f64Str` with no
escaping; and the whole encoded line refines the spec-side grammar built
from these per-class rules. -/
theorem c2_escaping :
    (∀ (sens : List Char) (s : Str), escape sens s = (s.map (escChar sens)).flatten) ∧
    (∀ (sens : List Char) (c : Char), c ∉ sens → escChar sens c = [c]) ∧
    (∀ (sens : List Char) (c : Char), c ∈ sens → escChar sens c = ['\\', c]) ∧
    ('=' ∉ mSens ∧ mSens = [',', ' ']) ∧
    (kvSens = [',', '=', ' ']) ∧
    (sfSens = ['"', '\\']) ∧
    (∀ s, tagValSrc (.String s) = escape kvSens s) ∧
    (∀ s, fieldValSrc (.String s) = escape sfSens s) ∧
    (∀ f, tagValSrc (.F64 f) = f64Str f) ∧
    (∀ f, fieldValSrc (.F64 f) = f64Str f) ∧
    (∀ m d, encodeLine m d = lineSpec m d) := by
  refine ⟨fun sens s => (escape_eq sens s).trans rfl, ?_, ?_, by decide, rfl, rfl,
    fun s => rfl, fun s => rfl, fun f => rfl, fun f => rfl, encode_eq_spec⟩
  · intro sens c hc
    simp [escChar, hc]
  · intro sens c hc
    simp [escChar, hc]

/-- Witness for C2: concrete instances of the hypothetical conjuncts. -/
theorem c2_escaping_witness :
    escChar mSens 'x' = ['x'] ∧ escChar kvSens ',' = ['\\', ','] :=
  ⟨c2_escaping.2.1 mSens 'x' (by decide), c2_escaping.2.2.1 kvSens ',' (by decide)⟩

/-- Claim C3: for data with at least one field entry, the encoded line is
the escaped measurement, `,key=value` per tag in insertion order, one
space, then `key=value` per field in insertion order separated by single
commas — exactly the spec grammar `lineSpec`, which has no separators
beyond these. -/
theorem c3_grammar (m : Str) (d : PublishData) (h : fieldPairs d ≠ []) :
    encodeLine m d =
      escSpec mSens m ++
        ((tagPairs d).map (fun p => ',' :: segTag p)).flatten ++
        ' ' :: joinSegs [','] ((fieldPairs d).map segField) :=
  encode_eq_spec m d

/-- Witness for C3: the spec's encoder example, measurement `m`, tag
device=a,b, field p=1.5, encodes to the grammar's text. -/
theorem c3_grammar_witness :
    fieldPairs cExData ≠ [] ∧
    encodeLine ['m'] cExData =
      escSpec mSens ['m'] ++
        ((tagPairs cExData).map (fun p => ',' :: segTag p)).flatten ++
        ' ' :: joinSegs [','] ((fieldPairs cExData).map segField) :=
  ⟨by decide, c3_grammar ['m'] cExData (by decide)⟩

/-! ## Scraper claims -/

/-- Successful run of `Inverter::parse_html`: all captures and parses
succeed and the values are not all zero. -/
theorem parseInv_ok (inv : Inverter) (html : Str) (rawSn rawCp rawYt rawTy : Str)
    (cp yt ty : ℚ)
    (hsn : sunCapture "cover_mid" html = some rawSn)
    (hcp : sunCapture "webdata_now_p" html = some rawCp)
    (hyt : sunCapture "webdata_today_e" html = some rawYt)
    (hty : sunCapture "webdata_total_e" html = some rawTy)
    (pcp : parseF64 rawCp = some cp)
    (pyt : parseF64 rawYt = some yt)
    (pty : parseF64 rawTy = some ty)
    (hnz : ¬(cp = 0 ∧ yt = 0 ∧ ty = 0)) :
    inv.parse_html html = .ok (invData inv (rustTrim rawSn) cp yt ty) := by
  simp only [Inverter.parse_html, hsn, hcp, hyt, hty, pcp, pyt, pty]
  rw [if_neg hnz]
  rfl

/-- Claim C1: when all four inverter markers match and the three numeric
captures parse, an all-zero reading is rejected with the error naming the
(trimmed) device serial; a reading with at least one non-zero value is
not rejected — parsing succeeds. -/
theorem c1_zero_filter (inv : Inverter) (html : Str) (rawSn rawCp rawYt rawTy : Str)
    (cp yt ty : ℚ)
    (hsn : sunCapture "cover_mid" html = some rawSn)
    (hcp : sunCapture "webdata_now_p" html = some rawCp)
    (hyt : sunCapture "webdata_today_e" html = some rawYt)
    (hty : sunCapture "webdata_total_e" html = some rawTy)
    (pcp : parseF64 rawCp = some cp)
    (pyt : parseF64 rawYt = some yt)
    (pty : parseF64 rawTy = some ty) :
    (cp = 0 ∧ yt = 0 ∧ ty = 0 →
      inv.parse_html html = .error (.allZero (rustTrim rawSn))) ∧
    (¬(cp = 0 ∧ yt = 0 ∧ ty = 0) → ∃ d, inv.parse_html html = .ok d) := by
  constructor
  · intro hz
    simp [Inverter.parse_html, hsn, hcp, hyt, hty, pcp, pyt, pty, hz.1, hz.2.1, hz.2.2]
  · intro hnz
    exact ⟨_, parseInv_ok inv html rawSn rawCp rawYt rawTy cp yt ty hsn hcp hyt hty
      pcp pyt pty hnz⟩

/-- Witness for C1: the all-zero inverter body is rejected naming serial
238483342, and the non-zero example body is not rejected. -/
theorem c1_zero_filter_witness :
    cInv.parse_html cZeroHtml = .error (.allZero ("238483342".data)) ∧
    (∃ d, cInv.parse_html cExHtml = .ok d) :=
  ⟨by
    have h := (c1_zero_filter cInv cZeroHtml ("238483342".data) ("0".data) ("0.0".data)
      ("0".data) 0 0 0 (by decide) (by decide) (by decide) (by decide) (by decide)
      (by decide) (by decide)).1 ⟨rfl, rfl, rfl⟩
    exact h.trans (by decide),
   (c1_zero_filter cInv cExHtml ("238483342   ".data) ("998".data) ("99.0".data)
      ("1010.2".data) 998 99 (Rat.divInt 5051 5) (by decide) (by decide) (by decide)
      (by decide) (by decide) (by decide) (by decide)).2 (by decide)⟩

/-- Counterexample to claim C4 as stated: in the body `cPadHtml` the
current-power value is the quoted text `998` followed by three spaces;
the capture keeps the padding, the code does not trim it (trimming would
have produced 998), and the poll fails with a float-parse error instead
of returning the data. -/
theorem c4_counterexample :
    sunCapture "webdata_now_p" cPadHtml = some (('9' :: '9' :: '8' :: ' ' :: ' ' :: [' '])) ∧
    parseF64 ('9' :: '9' :: '8' :: ' ' :: ' ' :: [' ']) = none ∧
    parseF64 (rustTrim ('9' :: '9' :: '8' :: ' ' :: ' ' :: [' '])) = some 998 ∧
    cInv.parse_html cPadHtml = .error .floatErr := by
  refine ⟨by decide, by decide, by decide, by decide⟩

/-- Claim C4 as amended: whitespace is trimmed around the captured device
serial only; the numeric captures are parsed exactly as captured, so when
each numeric capture is itself a float literal (and the three values are
not all zero) the scraper returns exactly those three floats and the
trimmed serial number, with the tags and fields of the inverter. -/
theorem c4_extraction (inv : Inverter) (html : Str) (rawSn rawCp rawYt rawTy : Str)
    (cp yt ty : ℚ)
    (hsn : sunCapture "cover_mid" html = some rawSn)
    (hcp : sunCapture "webdata_now_p" html = some rawCp)
    (hyt : sunCapture "webdata_today_e" html = some rawYt)
    (hty : sunCapture "webdata_total_e" html = some rawTy)
    (pcp : parseF64 rawCp = some cp)
    (pyt : parseF64 rawYt = some yt)
    (pty : parseF64 rawTy = some ty)
    (hnz : ¬(cp = 0 ∧ yt = 0 ∧ ty = 0)) :
    inv.parse_html html = .ok (invData inv (rustTrim rawSn) cp yt ty) :=
  parseInv_ok inv html rawSn rawCp rawYt rawTy cp yt ty hsn hcp hyt hty pcp pyt pty hnz

/-- Witness for C4 (amended): the spec's end-to-end inverter example —
serial trimmed to 238483342, currentPower 998, yieldToday 99,
totalYield 1010.2. -/
theorem c4_extraction_witness :
    cInv.parse_html cExHtml =
      .ok (invData cInv ("238483342".data) 998 99 (Rat.divInt 5051 5)) := by
  have h := c4_extraction cInv cExHtml ("238483342   ".data) ("998".data) ("99.0".data)
    ("1010.2".data) 998 99 (Rat.divInt 5051 5) (by decide) (by decide) (by decide)
    (by decide) (by decide) (by decide) (by decide) (by decide)
  exact h.trans (by decide)

/-- Claim C5: a smart-plug body whose three captures all parse as zero
yields a successful PublishData with the three zero-valued fields — no
zero-suppression for the smart plug. -/
theorem c5_tasmota_zero (tas : Tasmota) (html : Str) (rawCp rawYt rawTy : Str)
    (hcp : tasCapture "Active Power" html = some rawCp)
    (hyt : tasCapture "Energy Today" html = some rawYt)
    (hty : tasCapture "Energy Total" html = some rawTy)
    (pcp : parseF64 rawCp = some 0)
    (pyt : parseF64 rawYt = some 0)
    (pty : parseF64 rawTy = some 0) :
    tas.parse_html html =
      .ok ⟨[.Tag ("deviceName".data) (.String tas.device_name)] ++
           (match tas.device_location with
            | some loc => [.Tag ("deviceLocation".data) (.String loc)]
            | none => []) ++
           [.Field ("currentPower".data) (.F64 0),
            .Field ("yieldToday".data) (.F64 0),
            .Field ("totalYield".data) (.F64 0)]⟩ := by
  simp [Tasmota.parse_html, hcp, hyt, hty, pcp, pyt, pty]

/-- Witness for C5: a concrete all-zero smart-plug body. -/
theorem c5_tasmota_zero_witness :
    cTas.parse_html cTasHtml =
      .ok ⟨[.Tag ("deviceName".data) (.String ("name".data)),
            .Tag ("deviceLocation".data) (.String ("location".data)),
            .Field ("currentPower".data) (.F64 0),
            .Field ("yieldToday".data) (.F64 0),
            .Field ("totalYield".data) (.F64 0)]⟩ := by
  have h := c5_tasmota_zero cTas cTasHtml ("0".data) ("0.0".data) ("0".data)
    (by decide) (by decide) (by decide) (by decide) (by decide) (by decide)
  exact h.trans (by decide)

/-! ## Error taxonomy (claim C7) -/

/-- Counterexample to claim C7 as stated: two inverter bodies in which
different fields (current power, respectively yield today) are present
but not numeric produce the very same error value — the float-parse error
carries no message naming the offending field (the `?` on
`parse::<f64>()` attaches no context), so the error does not identify
which field was unparseable. -/
theorem c7_counterexample :
    cInv.parse_html cBadCpHtml = .error .floatErr ∧
    cInv.parse_html cBadYtHtml = .error .floatErr ∧
    cBadCpHtml ≠ cBadYtHtml := by
  refine ⟨by decide, by decide, by decide⟩

/-- Claim C7 as amended: for both scrapers, a missing marker yields a
not-found error whose message names the specific field, the four (three)
messages being pairwise distinct; an unparseable numeric capture yields
the float-parse error, which is distinct from every not-found error but
names no field. -/
theorem c7_errors :
    (∀ (inv : Inverter) (html : Str),
      sunCapture "cover_mid" html = none →
        inv.parse_html html = .error (.notFound "Could not parse device sn")) ∧
    (∀ (inv : Inverter) (html r1 : Str),
      sunCapture "cover_mid" html = some r1 →
      sunCapture "webdata_now_p" html = none →
        inv.parse_html html = .error (.notFound "Could not parse current power")) ∧
    (∀ (inv : Inverter) (html r1 r2 : Str) (cp : ℚ),
      sunCapture "cover_mid" html = some r1 →
      sunCapture "webdata_now_p" html = some r2 → parseF64 r2 = some cp →
      sunCapture "webdata_today_e" html = none →
        inv.parse_html html = .error (.notFound "Could not parse yield today")) ∧
    (∀ (inv : Inverter) (html r1 r2 r3 : Str) (cp yt : ℚ),
      sunCapture "cover_mid" html = some r1 →
      sunCapture "webdata_now_p" html = some r2 → parseF64 r2 = some cp →
      sunCapture "webdata_today_e" html = some r3 → parseF64 r3 = some yt →
      sunCapture "webdata_total_e" html = none →
        inv.parse_html html = .error (.notFound "Could not parse total yield")) ∧
    (∀ (inv : Inverter) (html r1 r2 : Str),
      sunCapture "cover_mid" html = some r1 →
      sunCapture "webdata_now_p" html = some r2 → parseF64 r2 = none →
        inv.parse_html html = .error .floatErr) ∧
    (∀ (inv : Inverter) (html r1 r2 r3 : Str) (cp : ℚ),
      sunCapture "cover_mid" html = some r1 →
      sunCapture "webdata_now_p" html = some r2 → parseF64 r2 = some cp →
      sunCapture "webdata_today_e" html = some r3 → parseF64 r3 = none →
        inv.parse_html html = .error .floatErr) ∧
    (∀ (tas : Tasmota) (html : Str),
      tasCapture "Active Power" html = none →
        tas.parse_html html = .error (.notFound "Could not parse current power")) ∧
    (∀ (tas : Tasmota) (html r1 : Str) (cp : ℚ),
      tasCapture "Active Power" html = some r1 → parseF64 r1 = some cp →
      tasCapture "Energy Today" html = none →
        tas.parse_html html = .error (.notFound "Could not parse yield today")) ∧
    (∀ (tas : Tasmota) (html r1 : Str),
      tasCapture "Active Power" html = some r1 → parseF64 r1 = none →
        tas.parse_html html = .error .floatErr) ∧
    (∀ m, PollError.notFound m ≠ .floatErr) ∧
    (PollError.notFound "Could not parse device sn" ≠
        .notFound "Could not parse current power" ∧
      PollError.notFound "Could not parse device sn" ≠
        .notFound "Could not parse yield today" ∧
      PollError.notFound "Could not parse device sn" ≠
        .notFound "Could not parse total yield" ∧
      PollError.notFound "Could not parse current power" ≠
        .notFound "Could not parse yield today" ∧
      PollError.notFound "Could not parse current power" ≠
        .notFound "Could not parse total yield" ∧
      PollError.notFound "Could not parse yield today" ≠
        .notFound "Could not parse total yield") := by
  refine ⟨?_, ?_, ?_, ?_, ?_, ?_, ?_, ?_, ?_, ?_, by decide⟩
  · intro inv html h
    simp [Inverter.parse_html, h]
  · intro inv html r1 h1 h
    simp [Inverter.parse_html, h1, h]
  · intro inv html r1 r2 cp h1 h2 p2 h
    simp [Inverter.parse_html, h1, h2, p2, h]
  · intro inv html r1 r2 r3 cp yt h1 h2 p2 h3 p3 h
    simp [Inverter.parse_html, h1, h2, p2, h3, p3, h]
  · intro inv html r1 r2 h1 h2 p2
    simp [Inverter.parse_html, h1, h2, p2]
  · intro inv html r1 r2 r3 cp h1 h2 p2 h3 p3
    simp [Inverter.parse_html, h1, h2, p2, h3, p3]
  · intro tas html h
    simp [Tasmota.parse_html, h]
  · intro tas html r1 cp h1 p1 h
    simp [Tasmota.parse_html, h1, p1, h]
  · intro tas html r1 h1 p1
    simp [Tasmota.parse_html, h1, p1]
  · intro m
    simp

/-- Witness for C7 (amended): concrete bodies exercising a missing-marker
error and a float-parse error. -/
theorem c7_errors_witness :
    cInv.parse_html [] = .error (.notFound "Could not parse device sn") ∧
    cInv.parse_html cBadCpHtml = .error .floatErr ∧
    PollError.notFound "Could not parse current power" ≠ .floatErr :=
  ⟨c7_errors.1 cInv [] (by decide),
   c7_errors.2.2.2.2.1 cInv cBadCpHtml ("S1".data) ("abc".data) (by decide) (by decide)
     (by decide),
   c7_errors.2.2.2.2.2.2.2.2.2.1 "Could not parse current power"⟩

/-! ## Index lookup (claim C9) -/

/-- An entry whose name differs from the index is filtered out. -/
theorem matchVal_none {n : Str} {f : Field} (h : entryName f ≠ n) :
    matchVal n f = none := by
  cases f <;> simp_all [matchVal, entryName]

/-- An entry whose name equals the index contributes its value. -/
theorem matchVal_some {n : Str} {f : Field} (h : entryName f = n) :
    matchVal n f = some (entryVal f) := by
  cases f <;> simp_all [matchVal, entryName, entryVal]

/-- Claim C9: indexing a PublishData returns the value of the first entry
— Tag or Field, in insertion order — whose name equals the given name;
when no entry has that name the lookup is empty (the Rust `unwrap`
panics there rather than returning an error or default). -/
theorem c9_index (d : PublishData) (n : Str) :
    ((∀ f ∈ d.fields, entryName f ≠ n) → indexData d n = none) ∧
    (∀ (pre post : List Field) (f : Field),
      d.fields = pre ++ f :: post → (∀ g ∈ pre, entryName g ≠ n) → entryName f = n →
        indexData d n = some (entryVal f)) := by
  constructor
  · intro h
    have : d.fields.filterMap (matchVal n) = [] := by
      rw [List.filterMap_eq_nil_iff]
      exact fun f hf => matchVal_none (h f hf)
    simp [indexData, this]
  · intro pre post f hsplit hpre hf
    have hpre' : pre.filterMap (matchVal n) = [] := by
      rw [List.filterMap_eq_nil_iff]
      exact fun g hg => matchVal_none (hpre g hg)
    simp [indexData, hsplit, List.filterMap_append, hpre', List.filterMap_cons,
      matchVal_some hf]

/-- Witness for C9: on a concrete PublishData the lookup returns the first
entry named `device` and is empty for an absent name. -/
theorem c9_index_witness :
    indexData cExData ("device".data) = some (.String ("a,b".data)) ∧
    indexData cExData ("missing".data) = none :=
  ⟨(c9_index cExData ("device".data)).2 [] [.Field ("p".data) (.F64 (Rat.divInt 3 2))]
      (.Tag ("device".data) (.String ("a,b".data))) (by decide) (by decide) (by decide),
   (c9_index cExData ("missing".data)).1 (by decide)⟩

/-! ## Poll result shape (claim C10) -/

/-- Claim C10: every PublishData produced by a successful poll of either
scraper has exactly the three fields currentPower, yieldToday, totalYield
in that order; its tags begin with deviceName, followed by deviceLocation
when configured, and — for the inverter only — end with the device
serial; in particular it has at least one field entry. -/
theorem c10_shape :
    (∀ (inv : Inverter) (html : Str) (d : PublishData),
      inv.parse_html html = .ok d →
      ∃ sn cp yt ty,
        d = invData inv sn cp yt ty ∧
        fieldPairs d = [("currentPower".data, .F64 cp), ("yieldToday".data, .F64 yt),
          ("totalYield".data, .F64 ty)] ∧
        tagPairs d = ("deviceName".data, .String inv.device_name) ::
          ((match inv.device_location with
            | some loc => [(("deviceLocation".data : Str), Value.String loc)]
            | none => []) ++ [("device".data, .String sn)]) ∧
        fieldPairs d ≠ []) ∧
    (∀ (tas : Tasmota) (html : Str) (d : PublishData),
      tas.parse_html html = .ok d →
      ∃ cp yt ty,
        d = tasData tas cp yt ty ∧
        fieldPairs d = [("currentPower".data, .F64 cp), ("yieldToday".data, .F64 yt),
          ("totalYield".data, .F64 ty)] ∧
        tagPairs d = ("deviceName".data, .String tas.device_name) ::
          (match tas.device_location with
           | some loc => [(("deviceLocation".data : Str), Value.String loc)]
           | none => []) ∧
        fieldPairs d ≠ []) := by
  constructor
  · intro inv html d h
    simp only [Inverter.parse_html] at h
    cases h1 : sunCapture "cover_mid" html <;> simp only [h1] at h
    case none => cases h
    case some rawSn =>
    cases h2 : sunCapture "webdata_now_p" html <;> simp only [h2] at h
    case none => cases h
    case some rawCp =>
    cases p2 : parseF64 rawCp <;> simp only [p2] at h
    case none => cases h
    case some cp =>
    cases h3 : sunCapture "webdata_today_e" html <;> simp only [h3] at h
    case none => cases h
    case some rawYt =>
    cases p3 : parseF64 rawYt <;> simp only [p3] at h
    case none => cases h
    case some yt =>
    cases h4 : sunCapture "webdata_total_e" html <;> simp only [h4] at h
    case none => cases h
    case some rawTy =>
    cases p4 : parseF64 rawTy <;> simp only [p4] at h
    case none => cases h
    case some ty =>
    split at h
    · cases h
    · injection h with hd
      refine ⟨rustTrim rawSn, cp, yt, ty, ?_, ?_, ?_, ?_⟩ <;> rw [← hd] <;>
        cases hl : inv.device_location <;>
          simp [invData, fieldPairs, fieldPairsL, tagPairs, tagPairsL, hl]
  · intro tas html d h
    simp only [Tasmota.parse_html] at h
    cases h1 : tasCapture "Active Power" html <;> simp only [h1] at h
    case none => cases h
    case some rawCp =>
    cases p1 : parseF64 rawCp <;> simp only [p1] at h
    case none => cases h
    case some cp =>
    cases h2 : tasCapture "Energy Today" html <;> simp only [h2] at h
    case none => cases h
    case some rawYt =>
    cases p2 : parseF64 rawYt <;> simp only [p2] at h
    case none => cases h
    case some yt =>
    cases h3 : tasCapture "Energy Total" html <;> simp only [h3] at h
    case none => cases h
    case some rawTy =>
    cases p3 : parseF64 rawTy <;> simp only [p3] at h
    case none => cases h
    case some ty =>
    injection h with hd
    refine ⟨cp, yt, ty, ?_, ?_, ?_, ?_⟩ <;> rw [← hd] <;>
      cases hl : tas.device_location <;>
        simp [tasData, fieldPairs, fieldPairsL, tagPairs, tagPairsL, hl]

/-- Witness for C10: the successful poll of the concrete inverter body
has the claimed shape. -/
theorem c10_shape_witness :
    (∃ sn cp yt ty,
      invData cInv ("238483342".data) 998 99 (Rat.divInt 5051 5) = invData cInv sn cp yt ty) ∧
    fieldPairs (invData cInv ("238483342".data) 998 99 (Rat.divInt 5051 5)) ≠ [] := by
  have h := (c10_shape.1 cInv cExHtml
    (invData cInv ("238483342".data) 998 99 (Rat.divInt 5051 5)) (by decide))
  obtain ⟨sn, cp, yt, ty, hd, hfp, htp, hne⟩ := h
  exact ⟨⟨sn, cp, yt, ty, hd⟩, hne⟩

/-! ## Round-trip lemmas (claim C6) -/

/-- Escaping is the identity on strings free of the sensitive set. -/
theorem escSpec_id (sens : List Char) (s : Str) (h : ∀ c ∈ s, c ∉ sens) :
    escSpec sens s = s := by
  induction s with
  | nil => rfl
  | cons c cs ih =>
    have hc : c ∉ sens := h c (List.mem_cons_self c cs)
    simp [escSpec, escChar, hc] at ih ⊢
    exact ih fun x hx => h x (List.mem_cons_of_mem c hx)

/-- Every character rendered by `natStrF` is a decimal digit character. -/
theorem natStrF_digit (fuel : Nat) : ∀ (n : Nat), ∀ c ∈ natStrF fuel n, ∃ d, c = digitChar d := by
  induction fuel with
  | zero => intro n c hc; cases hc
  | succ fuel ih =>
    intro n c hc
    rw [natStrF] at hc
    by_cases hn : n < 10
    · rw [if_pos hn] at hc
      rcases List.mem_singleton.1 hc with h
      exact ⟨n, h⟩
    · rw [if_neg hn] at hc
      rcases List.mem_append.1 hc with h | h
      · exact ih (n / 10) c h
      · exact ⟨n % 10, List.mem_singleton.1 h⟩

/-- Digit characters are never escaped. -/
theorem digitChar_not_sens : ∀ (d : Nat), digitChar d ∉ sensUnion
  | 0 => by decide
  | 1 => by decide
  | 2 => by decide
  | 3 => by decide
  | 4 => by decide
  | 5 => by decide
  | 6 => by decide
  | 7 => by decide
  | 8 => by decide
  | 9 => by decide
  | d + 10 => by
    have hd : digitChar (d + 10) = '9' := rfl
    rw [hd]
    decide

/-- Characters of a rendered natural number are never escaped. -/
theorem natStr_not_sens (n : Nat) : ∀ c ∈ natStr n, c ∉ sensUnion := by
  intro c hc
  obtain ⟨d, rfl⟩ := natStrF_digit (n + 1) n c hc
  exact digitChar_not_sens d

/-- Characters survive `dropZeros`. -/
theorem mem_dropZeros {c : Char} {s : Str} (h : c ∈ dropZeros s) : c ∈ s := by
  rw [dropZeros, List.mem_reverse] at h
  exact List.mem_reverse.1 ((List.dropWhile_sublist _).subset h)

/-- Characters of `padZeros` are zeros or original characters. -/
theorem mem_padZeros {c : Char} {k : Nat} {s : Str} (h : c ∈ padZeros k s) :
    c = '0' ∨ c ∈ s := by
  rcases List.mem_append.1 h with h | h
  · exact Or.inl (List.eq_of_mem_replicate h)
  · exact Or.inr h

/-- No character of a rendered number is ever escaped. -/
theorem f64Str_not_sens (q : ℚ) : ∀ c ∈ f64Str q, c ∉ sensUnion := by
  intro c hc
  have hsign : ∀ x ∈ (if q.num < 0 then (['-'] : Str) else []), x ∉ sensUnion := by
    intro x hx
    split at hx
    · rw [List.mem_singleton.1 hx]; decide
    · cases hx
  rcases hp : pow10Exp q.den with _ | k
  · simp only [f64Str, hp, List.mem_append, List.mem_cons] at hc
    rcases hc with (h | h) | h | h
    · exact hsign c h
    · exact natStr_not_sens _ c h
    · rw [h]; decide
    · exact natStr_not_sens _ c h
  · simp only [f64Str, hp] at hc
    split at hc
    · rcases List.mem_append.1 hc with h | h
      · exact hsign c h
      · exact natStr_not_sens _ c h
    · simp only [List.mem_append, List.mem_cons] at hc
      rcases hc with (h | h) | h | h
      · exact hsign c h
      · exact natStr_not_sens _ c h
      · rw [h]; decide
      · rcases mem_padZeros (mem_dropZeros h) with h | h
        · rw [h]; decide
        · exact natStr_not_sens _ c h

/-- The text a value contributes to a line is free of escapable
characters whenever the value itself is. -/
theorem valText_not_sens {v : Value} (h : valSensFree v) :
    ∀ c ∈ valText v, c ∉ sensUnion := by
  cases v with
  | String s => exact h
  | F64 f => exact f64Str_not_sens f

/-- `splitAtFirst` splits at an occurrence preceded by no other. -/
theorem splitAtFirst_app (c : Char) (A B : Str) (h : ∀ x ∈ A, x ≠ c) :
    splitAtFirst c (A ++ c :: B) = some (A, B) := by
  induction A with
  | nil => simp [splitAtFirst]
  | cons a as ih =>
    have ha : a ≠ c := h a (List.mem_cons_self a as)
    simp [splitAtFirst, ha, ih fun x hx => h x (List.mem_cons_of_mem a hx)]

/-- `splitOnChar` does not split a string free of the separator. -/
theorem splitOnChar_free (c : Char) (s : Str) (h : ∀ x ∈ s, x ≠ c) :
    splitOnChar c s = [s] := by
  induction s with
  | nil => rfl
  | cons a as ih =>
    have ha : a ≠ c := h a (List.mem_cons_self a as)
    simp [splitOnChar, ha, ih fun x hx => h x (List.mem_cons_of_mem a hx)]

/-- `splitOnChar` peels one separator-free prefix. -/
theorem splitOnChar_app (c : Char) (A B : Str) (h : ∀ x ∈ A, x ≠ c) :
    splitOnChar c (A ++ c :: B) = A :: splitOnChar c B := by
  induction A with
  | nil => simp [splitOnChar]
  | cons a as ih =>
    have ha : a ≠ c := h a (List.mem_cons_self a as)
    simp [splitOnChar, ha, ih fun x hx => h x (List.mem_cons_of_mem a hx)]

/-- Splitting the tag section: a separator-free head followed by one
`c`-prefixed segment per element recovers head and segments. -/
theorem splitOnChar_tags (c : Char) (g : α → Str) (l : List α) :
    ∀ (m : Str), (∀ x ∈ m, x ≠ c) → (∀ a ∈ l, ∀ x ∈ g a, x ≠ c) →
      splitOnChar c (m ++ (l.map (fun a => c :: g a)).flatten) = m :: l.map g := by
  induction l with
  | nil => intro m hm _; simp [splitOnChar_free c m hm]
  | cons a rest ih =>
    intro m hm hs
    have : m ++ (List.map (fun a => c :: g a) (a :: rest)).flatten =
        m ++ c :: (g a ++ (List.map (fun a => c :: g a) rest).flatten) := by
      simp
    rw [this, splitOnChar_app c m _ hm]
    have step := ih (g a) (hs a (List.mem_cons_self a rest))
      (fun b hb => hs b (List.mem_cons_of_mem a hb))
    simp [step]

/-- Splitting the field section: comma-joined separator-free segments are
recovered exactly. -/
theorem splitOnChar_joinSegs (c : Char) (g : α → Str) (l : List α) (hne : l ≠ [])
    (hs : ∀ b ∈ l, ∀ x ∈ g b, x ≠ c) :
    splitOnChar c (joinSegs [c] (l.map g)) = l.map g := by
  cases l with
  | nil => exact absurd rfl hne
  | cons a rest =>
    have hj : joinSegs [c] ((a :: rest).map g) =
        g a ++ (rest.map (fun b => c :: g b)).flatten := by
      simp [joinSegs, Function.comp_def]
    rw [hj]
    exact splitOnChar_tags c g rest (g a) (hs a (List.mem_cons_self a rest))
      (fun b hb => hs b (List.mem_cons_of_mem a hb))

/-- Reading back a `key=value` segment with an `=`-free key. -/
theorem kvOf_app (k v : Str) (h : ∀ x ∈ k, x ≠ '=') : kvOf (k ++ '=' :: v) = (k, v) := by
  simp [kvOf, splitAtFirst_app '=' k v h]

/-- Strings free of every escapable character are free of each context's
sensitive set. -/
theorem sensFree_not_mem {s : Str} (h : sensFree s) (sens : List Char)
    (sub : ∀ x ∈ sens, x ∈ sensUnion) : ∀ c ∈ s, c ∉ sens :=
  fun c hc hm => h c hc (sub c hm)

/-- Under the no-escape hypotheses, the spec tag segment is the plain
`key=value` text. -/
theorem segTag_plain (p : Str × Value) (h1 : sensFree p.1) (h2 : valSensFree p.2) :
    segTag p = p.1 ++ '=' :: valText p.2 := by
  obtain ⟨k, v⟩ := p
  have hk := sensFree_not_mem h1 kvSens (by decide)
  cases v with
  | String s =>
    have hsv := sensFree_not_mem (s := s) h2 kvSens (by decide)
    simp [segTag, tagValSpec, valText, escSpec_id _ _ hk, escSpec_id _ _ hsv]
  | F64 f => simp [segTag, tagValSpec, valText, escSpec_id _ _ hk]

/-- Under the no-escape hypotheses, the spec field segment is the plain
`key=value` text. -/
theorem segField_plain (p : Str × Value) (h1 : sensFree p.1) (h2 : valSensFree p.2) :
    segField p = p.1 ++ '=' :: valText p.2 := by
  obtain ⟨k, v⟩ := p
  have hk := sensFree_not_mem h1 kvSens (by decide)
  cases v with
  | String s =>
    have hsv := sensFree_not_mem (s := s) h2 sfSens (by decide)
    simp [segField, fieldValSpec, valText, escSpec_id _ _ hk, escSpec_id _ _ hsv]
  | F64 f => simp [segField, fieldValSpec, valText, escSpec_id _ _ hk]

/-- Characters of a plain `key=value` segment avoid every escapable
character other than the inner `=`. -/
theorem seg_chars (p : Str × Value) (h1 : sensFree p.1) (h2 : valSensFree p.2) :
    ∀ x ∈ (p.1 ++ '=' :: valText p.2), x = '=' ∨ x ∉ sensUnion := by
  intro x hx
  rcases List.mem_append.1 hx with h | h
  · exact Or.inr (h1 x h)
  · rcases List.mem_cons.1 h with h | h
    · exact Or.inl h
    · exact Or.inr (valText_not_sens h2 x h)

/-- A plain segment avoids any escapable character other than `=`. -/
theorem seg_ne (p : Str × Value) (h1 : sensFree p.1) (h2 : valSensFree p.2)
    (c : Char) (hc : c ∈ sensUnion) (hne : c ≠ '=') :
    ∀ x ∈ (p.1 ++ '=' :: valText p.2), x ≠ c := by
  intro x hx
  rcases seg_chars p h1 h2 x hx with h | h
  · rw [h]; exact fun he => hne he.symm
  · exact fun he => h (he ▸ hc)

/-- The tag entries of escape-free data are escape-free. -/
theorem tagPairs_sensFree (d : PublishData) (he : ∀ f ∈ d.fields, entrySensFree f) :
    ∀ p ∈ tagPairs d, sensFree p.1 ∧ valSensFree p.2 := by
  intro p hp
  rw [tagPairs, tagPairsL, List.mem_filterMap] at hp
  obtain ⟨f, hfmem, hmf⟩ := hp
  have hent := he f hfmem
  cases f with
  | Tag k v =>
    simp only [Option.some.injEq] at hmf
    rw [← hmf]
    exact hent
  | Field k v => simp at hmf

/-- The field entries of escape-free data are escape-free. -/
theorem fieldPairs_sensFree (d : PublishData) (he : ∀ f ∈ d.fields, entrySensFree f) :
    ∀ p ∈ fieldPairs d, sensFree p.1 ∧ valSensFree p.2 := by
  intro p hp
  rw [fieldPairs, fieldPairsL, List.mem_filterMap] at hp
  obtain ⟨f, hfmem, hmf⟩ := hp
  have hent := he f hfmem
  cases f with
  | Field k v =>
    simp only [Option.some.injEq] at hmf
    rw [← hmf]
    exact hent
  | Tag k v => simp at hmf

/-- Claim C6: when neither the measurement, nor any entry name, nor any
string value contains an escapable character, decoding the encoded line —
tag section before the single space split on commas into `key=value`
segments, field section after it likewise — recovers the measurement and
exactly the inserted (name, value) pairs, tags and fields each in
insertion order (numeric values read back as their decimal text). -/
theorem c6_roundtrip (m : Str) (d : PublishData)
    (hm : sensFree m)
    (he : ∀ f ∈ d.fields, entrySensFree f)
    (hf : fieldPairs d ≠ []) :
    decodeLine (encodeLine m d) =
      some (m, (tagPairs d).map (fun p => (p.1, valText p.2)),
        (fieldPairs d).map (fun p => (p.1, valText p.2))) := by
  have htag := tagPairs_sensFree d he
  have hfld := fieldPairs_sensFree d he
  have htagseg : (tagPairs d).map (fun p => ',' :: segTag p) =
      (tagPairs d).map (fun p => ',' :: (p.1 ++ '=' :: valText p.2)) :=
    List.map_congr_left fun p hp => by
      rw [segTag_plain p (htag p hp).1 (htag p hp).2]
  have hfldseg : (fieldPairs d).map segField =
      (fieldPairs d).map (fun p => p.1 ++ '=' :: valText p.2) :=
    List.map_congr_left fun p hp => segField_plain p (hfld p hp).1 (hfld p hp).2
  rw [encode_eq_spec, lineSpec,
    escSpec_id mSens m (sensFree_not_mem hm mSens (by decide)), htagseg, hfldseg]
  have hspace : ∀ x ∈ m ++ ((tagPairs d).map
      (fun p => ',' :: (p.1 ++ '=' :: valText p.2))).flatten, x ≠ ' ' := by
    intro x hx
    rcases List.mem_append.1 hx with h | h
    · exact fun he' => hm x h (by rw [he']; decide)
    · rw [List.mem_flatten] at h
      obtain ⟨l, hl, hxl⟩ := h
      rw [List.mem_map] at hl
      obtain ⟨p, hp, hpl⟩ := hl
      rw [← hpl] at hxl
      rcases List.mem_cons.1 hxl with h | h
      · rw [h]; decide
      · exact seg_ne p (htag p hp).1 (htag p hp).2 ' ' (by decide) (by decide) x h
  have h1 := splitAtFirst_app ' '
    (m ++ ((tagPairs d).map (fun p => ',' :: (p.1 ++ '=' :: valText p.2))).flatten)
    (joinSegs [','] ((fieldPairs d).map (fun p => p.1 ++ '=' :: valText p.2))) hspace
  have h2 := splitOnChar_tags ',' (fun p => p.1 ++ '=' :: valText p.2) (tagPairs d) m
    (fun x hx he' => hm x hx (by rw [he']; decide))
    (fun p hp => seg_ne p (htag p hp).1 (htag p hp).2 ',' (by decide) (by decide))
  have h3 := splitOnChar_joinSegs ',' (fun p => p.1 ++ '=' :: valText p.2) (fieldPairs d)
    hf (fun p hp => seg_ne p (hfld p hp).1 (hfld p hp).2 ',' (by decide) (by decide))
  simp only [decodeLine, h1, h2, h3]
  have h4 : ∀ (l : List (Str × Value)), (∀ p ∈ l, sensFree p.1 ∧ valSensFree p.2) →
      (l.map (fun p => p.1 ++ '=' :: valText p.2)).map kvOf =
        l.map (fun p => (p.1, valText p.2)) := by
    intro l hl
    rw [List.map_map]
    exact List.map_congr_left fun p hp => kvOf_app p.1 (valText p.2)
      (fun x hx he' => (hl p hp).1 x hx (by rw [he']; decide))
  rw [h4 (tagPairs d) htag, h4 (fieldPairs d) hfld]

/-- Witness for C6: a concrete escape-free PublishData round-trips. -/
theorem c6_roundtrip_witness :
    decodeLine (encodeLine ("power".data) cPlainData) =
      some ("power".data,
        [("deviceName".data, "solar".data), ("device".data, "238483342".data)],
        [("currentPower".data, "998".data), ("yieldToday".data, "1010.2".data)]) := by
  have h := c6_roundtrip ("power".data) cPlainData (by decide) (by decide) (by decide)
  exact h.trans (by decide)

/-! ## Config loading (claim C8) -/

/-- Claim C8: `Config::load` errors whenever exactly one of the two
argument channels is supplied and whenever the merged sources or targets
list is empty (through either channel, a failed targets parse included);
consequently a successful load always carries non-empty sources and
targets. -/
theorem c8_config
    (parseSources : String → Except ConfigError (List SourceDevice))
    (parseTargets : String → Except ConfigError (List BackendInfluxDB))
    (readFileConf : Except ConfigError Config) :
    (∀ srcArg tgtArg c,
      configLoad srcArg tgtArg parseSources parseTargets readFileConf = .ok c →
        c.sources ≠ [] ∧ c.targets ≠ []) ∧
    (∀ s, configLoad (some s) none parseSources parseTargets readFileConf =
      .error .supplyAllOrNone) ∧
    (∀ t, configLoad none (some t) parseSources parseTargets readFileConf =
      .error .supplyAllOrNone) ∧
    (∀ s t, parseSources s = .ok [] →
      configLoad (some s) (some t) parseSources parseTargets readFileConf =
        .error .noSources) ∧
    (∀ s t ss, parseSources s = .ok ss → ss ≠ [] → parseTargets t = .ok [] →
      configLoad (some s) (some t) parseSources parseTargets readFileConf =
        .error .noPublishers) ∧
    (∀ s t ss e, parseSources s = .ok ss → ss ≠ [] → parseTargets t = .error e →
      configLoad (some s) (some t) parseSources parseTargets readFileConf =
        .error .noPublishers) ∧
    (∀ cfg, readFileConf = .ok cfg → cfg.sources = [] →
      configLoad none none parseSources parseTargets readFileConf =
        .error .noSources) ∧
    (∀ cfg, readFileConf = .ok cfg → cfg.sources ≠ [] → cfg.targets = [] →
      configLoad none none parseSources parseTargets readFileConf =
        .error .noPublishers) := by
  refine ⟨?_, ?_, ?_, ?_, ?_, ?_, ?_, ?_⟩
  · intro srcArg tgtArg c h
    rcases hs : configMerge srcArg tgtArg parseSources parseTargets readFileConf
      with e | r
    · simp only [configLoad, hs] at h
      cases h
    · simp only [configLoad, hs] at h
      by_cases h1 : r.sources = []
      · simp [h1] at h
      · by_cases h2 : r.targets = []
        · simp [h1, h2] at h
        · rw [if_neg h1, if_neg h2] at h
          injection h with hr
          rw [← hr]
          exact ⟨h1, h2⟩
  · intro s
    simp [configLoad, configMerge]
  · intro t
    simp [configLoad, configMerge]
  · intro s t hps
    simp [configLoad, configMerge, hps]
  · intro s t ss hps hss hpt
    simp [configLoad, configMerge, hps, hpt, hss]
  · intro s t ss e hps hss hpt
    simp [configLoad, configMerge, hps, hpt, hss]
  · intro cfg hrf hcs
    simp [configLoad, configMerge, hrf, hcs]
  · intro cfg hrf hcs hct
    simp [configLoad, configMerge, hrf, hcs, hct]

/-- Witness for C8: a successful concrete load has non-empty lists, and
supplying only the sources argument is rejected. -/
theorem c8_config_witness :
    (Config.mk [.Inverter cInv] [cBackend]).sources ≠ [] ∧
    (Config.mk [.Inverter cInv] [cBackend]).targets ≠ [] ∧
    configLoad (some "s") none cParseSrc cParseTgt cFileConf =
      .error .supplyAllOrNone := by
  have h := (c8_config cParseSrc cParseTgt cFileConf).1 (some "s") (some "t")
    (Config.mk [.Inverter cInv] [cBackend]) (by decide)
  exact ⟨h.1, h.2, (c8_config cParseSrc cParseTgt cFileConf).2.1 "s"⟩

end SG
